import Mathlib

/-!
# Verification of the GPS geofence / clock-session core of `server.py`

This file gives a shallow embedding, in Lean 4, of the geofence verification
and clock-in/clock-out session logic of the time-tracking backend
(`src/server.py`), and proves the specification claims about it.

Modelling conventions:

* Python floats are modelled as real numbers (`ℝ`); `datetime` values are
  modelled as real-valued timestamps in seconds, so that
  `(t2 - t1).total_seconds()` becomes plain subtraction.
* MongoDB documents written by the handlers are modelled as Lean structures
  whose fields are exactly the keys the handlers write
  (`Project.model_dump()` for project documents, `ClockEntry.model_dump()`
  for clock-entry documents).  A `dict.get` on a key that is never written
  is embedded as a function returning `none`.
* `HTTPException`s are modelled as values of explicit error types; each
  handler returns the post-state of the database together with an
  `Except error result`.
* `datetime.now(timezone.utc)` and `uuid.uuid4()` are passed in as explicit
  `now` / fresh-id parameters.
-/

open Real

/-- `math.atan2 y x` (two-argument arctangent), as specified for CPython:
`atan2 y x` is the angle of the point `(x, y)`, in `(-π, π]`, with
`atan2 0 0 = 0`. -/
noncomputable def atan2 (y x : ℝ) : ℝ :=
  if 0 < x then Real.arctan (y / x)
  else if x < 0 then
    (if 0 ≤ y then Real.arctan (y / x) + Real.pi else Real.arctan (y / x) - Real.pi)
  else
    (if 0 < y then Real.pi / 2 else if y < 0 then -(Real.pi / 2) else 0)

/-- `math.radians`: degrees to radians. -/
noncomputable def radians (x : ℝ) : ℝ := x * Real.pi / 180

/-- `calculate_distance` (src/server.py:264-282): Haversine great-circle
distance in meters between two GPS coordinates, Earth radius 6 371 000 m. -/
noncomputable def calculate_distance (lat1 lon1 lat2 lon2 : ℝ) : ℝ :=
  let R : ℝ := 6371000
  let lat1_rad := radians lat1
  let lat2_rad := radians lat2
  let delta_lat := radians (lat2 - lat1)
  let delta_lon := radians (lon2 - lon1)
  let a := Real.sin (delta_lat / 2) ^ 2 +
    Real.cos lat1_rad * Real.cos lat2_rad * Real.sin (delta_lon / 2) ^ 2
  let c := 2 * atan2 (Real.sqrt a) (Real.sqrt (1 - a))
  R * c

/-- The Haversine distance exactly as §4.1 of the spec words it: "convert both
coordinates to radians; Δlat, Δlon are the radian differences;
a = sin²(Δlat/2) + cos(lat1)·cos(lat2)·sin²(Δlon/2);
c = 2·atan2(√a, √(1−a)); distance = R·c" with R = 6 371 000 m. -/
noncomputable def haversine_spec (lat1 lon1 lat2 lon2 : ℝ) : ℝ :=
  let R : ℝ := 6371000
  let phi1 := radians lat1
  let phi2 := radians lat2
  let dlat := phi2 - phi1
  let dlon := radians lon2 - radians lon1
  let a := Real.sin (dlat / 2) ^ 2 +
    Real.cos phi1 * Real.cos phi2 * Real.sin (dlon / 2) ^ 2
  let c := 2 * atan2 (Real.sqrt a) (Real.sqrt (1 - a))
  R * c

/-- Python `int(x)` on a float: truncation toward zero. -/
noncomputable def pyInt (x : ℝ) : ℤ := if 0 ≤ x then ⌊x⌋ else -⌊-x⌋

/-- Round half to even to an integer (the rounding mode of Python `round`). -/
noncomputable def roundHalfEven (x : ℝ) : ℤ :=
  if Int.fract x < 1 / 2 then ⌊x⌋
  else if 1 / 2 < Int.fract x then ⌊x⌋ + 1
  else if Even ⌊x⌋ then ⌊x⌋ else ⌊x⌋ + 1

/-- Python `round(x, 2)`: round to 2 decimal places, half to even
(real-number model of the float rounding used for `total_hours`). -/
noncomputable def pyRound2 (x : ℝ) : ℝ := (roundHalfEven (x * 100) : ℝ) / 100

/-- `DEFAULT_PROJECT_MATCH_RADIUS = 250` (src/server.py:48). -/
def DEFAULT_PROJECT_MATCH_RADIUS : ℝ := 250

/-- The `Location` pydantic model (src/server.py:80-84).  Its only coordinate
attributes are `latitude` and `longitude`; it has no `lat` / `lon`
attributes, so `clock_data.location.lat` (src/server.py:744, 814) would
raise `AttributeError` if evaluated. -/
structure Location where
  latitude : ℝ
  longitude : ℝ
  accuracy : Option ℝ := none
  address : Option String := none

/-- The parts of the `User` model the clock handlers read
(src/server.py:86-98). -/
structure User where
  id : String
  first_name : String
  last_name : String

/-- `User.full_name` (src/server.py:96-98). -/
def User.full_name (u : User) : String := u.first_name ++ " " ++ u.last_name

/-- A project document as stored in `db.projects`.  Documents are written only
by `create_project` (src/server.py:609-616, a `Project.model_dump()`) and
`update_project` (src/server.py:626-638, a `$set` of
`ProjectCreate.model_dump()`), so the keys present are exactly the fields of
the `Project` model (src/server.py:156-167): `id`, `name`, `company`,
`location`, `latitude`, `longitude`, `location_radius`, `description`,
`active`, `created_at`.  `latitude` / `longitude` are `Optional[float]`;
`location_radius` is modelled as optional because `update_project` can
`$set` it to `None` (the `ProjectCreate` field is `Optional[float]`). -/
structure ProjectDoc where
  id : String
  name : String
  company : String
  location : String
  latitude : Option ℝ
  longitude : Option ℝ
  location_radius : Option ℝ
  description : Option String := none
  active : Bool
  created_at : ℝ

/-- `project.get("location_lat")` (src/server.py:740, 812): project documents
contain exactly the `Project` model keys (see `ProjectDoc`), and the model
has no `location_lat` field, so `dict.get` returns `None`. -/
def ProjectDoc.get_location_lat (_ : ProjectDoc) : Option ℝ := none

/-- `project.get("location_lon")` (src/server.py:740, 812): same as
`ProjectDoc.get_location_lat` — the key is never written, `dict.get`
returns `None`. -/
def ProjectDoc.get_location_lon (_ : ProjectDoc) : Option ℝ := none

/-- The `ProjectCreate` request model (src/server.py:169-176). -/
structure ProjectCreate where
  name : String
  company : String
  location : String
  latitude : Option ℝ := none
  longitude : Option ℝ := none
  location_radius : Option ℝ := some 100
  description : Option String := none

/-- A clock-entry document in `db.clock_entries`: the fields of the
`ClockEntry` model (src/server.py:178-209).  String-warning fields are
modelled by the integer number of meters interpolated into the message
(`location_warning` carries `int(distance)` from src/server.py:693;
`clock_out_warning` would carry `int(distance)` from src/server.py:757). -/
structure ClockEntry where
  id : String
  user_id : String
  user_name : String
  project_id : String
  project_name : String
  company : String
  project_location : String
  clock_in_time : ℝ
  clock_in_location : Location
  clock_out_time : Option ℝ := none
  clock_out_location : Option Location := none
  clock_out_distance_m : Option ℝ := none
  clock_out_match : Option Bool := none
  clock_out_warning : Option ℤ := none
  total_hours : Option ℝ := none
  status : String := "clocked_in"
  location_warning : Option ℤ := none
  distance_to_project_m : Option ℝ := none
  project_match : Option Bool := none
  note : Option String := none
  created_at : ℝ

/-- A GPS-log document in `db.gps_logs` (src/server.py:826-834). -/
structure GpsLog where
  id : String
  entry_id : String
  user_id : String
  timestamp : ℝ
  location : Location
  distance_to_project : Option ℝ
  within_radius : Option Bool

/-- The collections of the Mongo database touched by the clock handlers. -/
structure DB where
  clock_entries : List ClockEntry
  projects : List ProjectDoc
  gps_logs : List GpsLog

/-- `ClockInRequest` (src/server.py:211-214). -/
structure ClockInRequest where
  project_id : String
  location : Location
  note : Option String := none

/-- `ClockOutRequest` (src/server.py:216-218). -/
structure ClockOutRequest where
  location : Location
  note : Option String := none

/-- The `HTTPException`s `clock_in` can raise (src/server.py:652-716).
`outOfRange` carries the data interpolated into the 403 detail
`"Te ver van project locatie: {int(distance)}m (maximaal {50}m toegestaan)"`:
the truncated measured distance and the 50 m limit.  `typeError` models the
`TypeError` Python raises at `distance_to_project > radius` when a project
document stores `location_radius = None`. -/
inductive ClockInError where
  | alreadyClockedIn
  | projectNotFound
  | siteMissingLocation
  | outOfRange (measured_m : ℤ) (limit_m : ℤ)
  | typeError
deriving DecidableEq

/-- The `HTTPException`s of `clock_out` (src/server.py:719-730), plus
`attributeError` modelling the `AttributeError` Python would raise at
`clock_data.location.lat` (src/server.py:744) were the geofence branch ever
entered. -/
inductive ClockOutError where
  | entryNotFound
  | notAuthorized
  | alreadyClosed
  | attributeError
deriving DecidableEq

/-- The `HTTPException`s of `log_gps_position` (src/server.py:793-804), plus
the `AttributeError` of `location.lat` (src/server.py:814). -/
inductive GpsLogError where
  | entryNotFound
  | entryNotActive
  | attributeError
deriving DecidableEq

/-- The predicate of the "already clocked in" query
`db.clock_entries.find_one({"user_id": current_user.id, "status": "clocked_in"})`
(src/server.py:654-657). -/
def isOpenEntryFor (uid : String) (e : ClockEntry) : Bool :=
  e.user_id == uid && e.status == "clocked_in"

/-- The predicate of the project lookup
`db.projects.find_one({"id": clock_data.project_id, "active": True})`
(src/server.py:662). -/
def isActiveProjectWithId (pid : String) (p : ProjectDoc) : Bool :=
  p.id == pid && p.active

/-- `db.clock_entries.update_one({"id": entry_id}, {"$set": ...})`
(src/server.py:778-781): replace the first document whose `id` matches. -/
def updateById : List ClockEntry → String → ClockEntry → List ClockEntry
  | [], _, _ => []
  | e :: rest, eid, v =>
    if e.id == eid then v :: rest else e :: updateById rest eid v

open Classical in
/-- The `clock_in` handler (src/server.py:651-717).  `now` stands for
`datetime.now(timezone.utc)` and `newId` for the fresh `uuid4` of the new
entry.  Returns the post-state of the database and either the created
`ClockEntry` or the raised error.

The site-coordinate presence check embeds the Python truthiness test
`if not project.get("latitude") or not project.get("longitude")`
(src/server.py:671): it fires when the value is absent (`None`) or `0.0`. -/
noncomputable def clock_in (db : DB) (user : User) (req : ClockInRequest)
    (now : ℝ) (newId : String) : DB × Except ClockInError ClockEntry :=
  match db.clock_entries.find? (isOpenEntryFor user.id) with
  | some _ => (db, .error .alreadyClockedIn)
  | none =>
    match db.projects.find? (isActiveProjectWithId req.project_id) with
    | none => (db, .error .projectNotFound)
    | some project =>
      match project.latitude, project.longitude with
      | some plat, some plon =>
        if plat = 0 ∨ plon = 0 then (db, .error .siteMissingLocation)
        else
          let distance_to_project :=
            calculate_distance req.location.latitude req.location.longitude plat plon
          if distance_to_project > 50 then
            (db, .error (.outOfRange (pyInt distance_to_project) 50))
          else
            let project_match := decide (distance_to_project ≤ DEFAULT_PROJECT_MATCH_RADIUS)
            match project.location_radius with
            | none => (db, .error .typeError)
            | some radius =>
              let location_warning :=
                if distance_to_project > radius then some (pyInt distance_to_project) else none
              let entry : ClockEntry :=
                { id := newId
                  user_id := user.id
                  user_name := user.full_name
                  project_id := req.project_id
                  project_name := project.name
                  company := project.company
                  project_location := project.location
                  clock_in_time := now
                  clock_in_location := req.location
                  note := req.note
                  status := "clocked_in"
                  location_warning := location_warning
                  distance_to_project_m := some distance_to_project
                  project_match := some project_match
                  created_at := now }
              ({ db with clock_entries := db.clock_entries ++ [entry] }, .ok entry)
      | _, _ => (db, .error .siteMissingLocation)

open Classical in
/-- The clock-out geofence computation (src/server.py:736-757):
`if project and project.get("location_lat") and project.get("location_lon") and clock_data.location:`
followed by an inline Haversine against `clock_data.location.lat/lon`.
Since project documents never contain `location_lat` / `location_lon`
(see `ProjectDoc.get_location_lat`) the guard is falsy and the triple
`(clock_out_distance, clock_out_match, clock_out_warning)` stays
`(None, None, None)`.  Entering the body would raise `AttributeError` at
`clock_data.location.lat`, modelled as the `.error` result.  A `Location`
object is always truthy, so the final conjunct never blocks. -/
def clockOutGeofence (project? : Option ProjectDoc) :
    Except ClockOutError (Option ℝ × Option Bool × Option ℤ) :=
  match project? with
  | none => .ok (none, none, none)
  | some p =>
    match p.get_location_lat with
    | none => .ok (none, none, none)
    | some llat =>
      if llat = 0 then .ok (none, none, none)
      else
        match p.get_location_lon with
        | none => .ok (none, none, none)
        | some llon =>
          if llon = 0 then .ok (none, none, none)
          else .error .attributeError

open Classical in
/-- The `clock_out` handler (src/server.py:719-791).  `now` stands for
`datetime.now(timezone.utc)`; the returned entry is the updated document
re-read at the end of the handler. -/
noncomputable def clock_out (db : DB) (user : User) (entry_id : String)
    (req : ClockOutRequest) (now : ℝ) : DB × Except ClockOutError ClockEntry :=
  match db.clock_entries.find? (fun e => e.id == entry_id) with
  | none => (db, .error .entryNotFound)
  | some entry =>
    if entry.user_id == user.id then
      if entry.status == "clocked_out" then (db, .error .alreadyClosed)
      else
        match clockOutGeofence (db.projects.find? (fun p => p.id == entry.project_id)) with
        | .error e => (db, .error e)
        | .ok (clock_out_distance, clock_out_match, clock_out_warning) =>
          let total_hours := pyRound2 ((now - entry.clock_in_time) / 3600)
          let updated : ClockEntry :=
            { entry with
              clock_out_time := some now
              clock_out_location := some req.location
              clock_out_distance_m := clock_out_distance
              clock_out_match := clock_out_match
              clock_out_warning := clock_out_warning
              total_hours := some total_hours
              status := "clocked_out"
              note := match req.note with
                      | some n => if n = "" then entry.note else some n
                      | none => entry.note }
          ({ db with clock_entries := updateById db.clock_entries entry_id updated },
            .ok updated)
    else (db, .error .notAuthorized)

/-- The GPS geofence computation of `log_gps_position` (src/server.py:809-823):
same dead guard as `clockOutGeofence`, producing
`(distance, within_radius) = (None, None)`; the body would raise
`AttributeError` at `location.lat`. -/
def gpsGeofence (project? : Option ProjectDoc) :
    Except GpsLogError (Option ℝ × Option Bool) :=
  match project? with
  | none => .ok (none, none)
  | some p =>
    match p.get_location_lat with
    | none => .ok (none, none)
    | some llat =>
      if llat = 0 then .ok (none, none)
      else
        match p.get_location_lon with
        | none => .ok (none, none)
        | some llon =>
          if llon = 0 then .ok (none, none)
          else .error .attributeError

/-- The `log_gps_position` handler (src/server.py:793-838).  The combined
check `if not entry or entry["user_id"] != current_user.id` yields the same
404 for both a missing entry and a foreign entry. -/
def log_gps_position (db : DB) (user : User) (entry_id : String)
    (location : Location) (now : ℝ) (newId : String) :
    DB × Except GpsLogError GpsLog :=
  match db.clock_entries.find? (fun e => e.id == entry_id) with
  | none => (db, .error .entryNotFound)
  | some entry =>
    if entry.user_id == user.id then
      if entry.status == "clocked_in" then
        match gpsGeofence (db.projects.find? (fun p => p.id == entry.project_id)) with
        | .error e => (db, .error e)
        | .ok (distance, within_radius) =>
          let gps_log : GpsLog :=
            { id := newId
              entry_id := entry_id
              user_id := user.id
              timestamp := now
              location := location
              distance_to_project := distance
              within_radius := within_radius }
          ({ db with gps_logs := db.gps_logs ++ [gps_log] }, .ok gps_log)
      else (db, .error .entryNotActive)
    else (db, .error .entryNotFound)

/-- Error of `create_project`: `Project(**project_data.model_dump())` fails
pydantic validation when `location_radius` is `None` (the `Project` field is
a non-optional `float`). -/
inductive CreateProjectError where
  | validationError
deriving DecidableEq

/-- The `create_project` handler (src/server.py:609-616): validates a
`Project` from the request and inserts its `model_dump`. -/
def create_project (db : DB) (data : ProjectCreate) (newId : String) (now : ℝ) :
    DB × Except CreateProjectError ProjectDoc :=
  match data.location_radius with
  | none => (db, .error .validationError)
  | some r =>
    let p : ProjectDoc :=
      { id := newId
        name := data.name
        company := data.company
        location := data.location
        latitude := data.latitude
        longitude := data.longitude
        location_radius := some r
        description := data.description
        active := true
        created_at := now }
    ({ db with projects := db.projects ++ [p] }, .ok p)

/-- `db.projects.update_one({"id": project_id}, {"$set": data.model_dump()})`:
overwrite the `ProjectCreate` fields of the first matching document. -/
def updateProjectById : List ProjectDoc → String → ProjectCreate → List ProjectDoc
  | [], _, _ => []
  | p :: rest, pid, data =>
    if p.id == pid then
      { p with
        name := data.name
        company := data.company
        location := data.location
        latitude := data.latitude
        longitude := data.longitude
        location_radius := data.location_radius
        description := data.description } :: rest
    else p :: updateProjectById rest pid data

/-- Error of `update_project`: 404 when no document matches. -/
inductive UpdateProjectError where
  | projectNotFound
deriving DecidableEq

/-- The `update_project` handler (src/server.py:626-638).  It touches only
`db.projects`; `db.clock_entries` and `db.gps_logs` are untouched. -/
def update_project (db : DB) (project_id : String) (data : ProjectCreate) :
    DB × Except UpdateProjectError Unit :=
  match db.projects.find? (fun p => p.id == project_id) with
  | none => (db, .error .projectNotFound)
  | some _ =>
    ({ db with projects := updateProjectById db.projects project_id data }, .ok ())

/-- The aggregation accumulator of `get_admin_overview`
(src/server.py:996-1027): running total plus the `hours_per_project` /
`hours_per_user` dictionaries, modelled as total functions that are `0`
outside the accumulated keys. -/
structure OverviewAcc where
  total : ℝ
  perProject : String → ℝ
  perUser : String → ℝ

/-- One iteration of the aggregation loop (src/server.py:1002-1027):
`hours = entry.get('total_hours', 0) or 0` is `0` exactly on a `None` (or
zero) stored value, and the three accumulators all add `hours`. -/
noncomputable def overviewStep (acc : OverviewAcc) (e : ClockEntry) : OverviewAcc :=
  let hours := e.total_hours.getD 0
  { total := acc.total + hours
    perProject := fun n =>
      if n = e.project_name then acc.perProject n + hours else acc.perProject n
    perUser := fun n =>
      if n = e.user_name then acc.perUser n + hours else acc.perUser n }

/-- The totals computed by `get_admin_overview` (src/server.py:994-1039) on
the list of entries matching the filter query, in Mongo `clock_in_time`
order: the returned `total_hours` (rounded to 2 decimals at
src/server.py:1034), `hours_per_project` and `hours_per_user_all`.  (The
`top10` key is a sorted truncation of `hours_per_user_all` and the
`entries`/`entry_count` keys echo the input; they are not modelled.) -/
noncomputable def get_admin_overview (entries : List ClockEntry) :
    ℝ × (String → ℝ) × (String → ℝ) :=
  let acc := entries.foldl overviewStep ⟨0, fun _ => 0, fun _ => 0⟩
  (pyRound2 acc.total, acc.perProject, acc.perUser)

/-- The hours the spec counts: the sum of `total_hours` over the
clocked-out entries of `l` that have a non-null `total_hours`. -/
noncomputable def sumClosedHours (l : List ClockEntry) : ℝ :=
  ((l.filter (fun e => e.status == "clocked_out" && e.total_hours.isSome)).map
    (fun e => e.total_hours.getD 0)).sum

/-- Number of open clock entries of worker `uid` in the database. -/
def openCount (db : DB) (uid : String) : ℕ :=
  (db.clock_entries.filter (isOpenEntryFor uid)).length

/-- The single-open-session invariant: every worker has at most one
clock entry with status `"clocked_in"`. -/
def atMostOneOpen (db : DB) : Prop := ∀ uid, openCount db uid ≤ 1


/-- The closed form of the entry produced by a successful `clock_out`
(src/server.py:766-781): closing fields set, `total_hours` computed,
status flipped, note overwritten only when a non-empty new note is supplied,
all other fields retained. -/
noncomputable def closeEntry (e : ClockEntry) (req : ClockOutRequest) (now : ℝ) :
    ClockEntry :=
  { e with
    clock_out_time := some now
    clock_out_location := some req.location
    clock_out_distance_m := none
    clock_out_match := none
    clock_out_warning := none
    total_hours := some (pyRound2 ((now - e.clock_in_time) / 3600))
    status := "clocked_out"
    note := match req.note with
            | some n => if n = "" then e.note else some n
            | none => e.note }

open Classical in
/-- The closed form of the entry created by a successful `clock_in`
(src/server.py:695-709), as a function of the admitted project coordinate
`(plat, plon)` and radius. -/
noncomputable def openedEntry (user : User) (req : ClockInRequest) (p : ProjectDoc)
    (plat plon radius : ℝ) (now : ℝ) (newId : String) : ClockEntry :=
  let d := calculate_distance req.location.latitude req.location.longitude plat plon
  { id := newId
    user_id := user.id
    user_name := user.full_name
    project_id := req.project_id
    project_name := p.name
    company := p.company
    project_location := p.location
    clock_in_time := now
    clock_in_location := req.location
    note := req.note
    status := "clocked_in"
    location_warning := if d > radius then some (pyInt d) else none
    distance_to_project_m := some d
    project_match := some (decide (d ≤ DEFAULT_PROJECT_MATCH_RADIUS))
    created_at := now }

/-- The raw running total of the aggregation loop: the sum of
`entry.get('total_hours', 0) or 0` over a list of entries. -/
noncomputable def totalRaw (l : List ClockEntry) : ℝ :=
  (l.map (fun e => e.total_hours.getD 0)).sum

/- ## Concrete fixtures used by witnesses and counterexamples -/

/-- A worker. -/
def sampleUser : User := { id := "u1", first_name := "Jan", last_name := "Prins" }

/-- An active project with coordinate `(52°, 5°)` and advisory radius 100 m. -/
def sampleProject : ProjectDoc :=
  { id := "p1", name := "Bouw", company := "TG", location := "Utrecht"
    latitude := some 52, longitude := some 5, location_radius := some 100
    active := true, created_at := 0 }

/-- An active project whose stored latitude is exactly `0.0` (a real
coordinate on the equator) — the truthiness check treats it as missing. -/
def zeroLatProject : ProjectDoc :=
  { id := "p0", name := "Equator", company := "TG", location := "Gulf of Guinea"
    latitude := some 0, longitude := some 5, location_radius := some 100
    active := true, created_at := 0 }

/-- An active project at `(0°, 0°)` with advisory radius 100 m, used to close
a session from the far side of the planet. -/
def farProject : ProjectDoc :=
  { id := "p2", name := "Null Island", company := "TG", location := "Atlantic"
    latitude := some 0, longitude := some 0, location_radius := some 100
    active := true, created_at := 0 }

/-- An open clock entry of `sampleUser` on `farProject`, opened at time 0. -/
def farOpenEntry : ClockEntry :=
  { id := "e1", user_id := "u1", user_name := "Jan Prins", project_id := "p2"
    project_name := "Null Island", company := "TG", project_location := "Atlantic"
    clock_in_time := 0, clock_in_location := { latitude := 0, longitude := 0 }
    status := "clocked_in", created_at := 0 }

/-- An already-closed clock entry of `sampleUser` on `sampleProject`. -/
def closedEntry : ClockEntry :=
  { id := "e2", user_id := "u1", user_name := "Jan Prins", project_id := "p1"
    project_name := "Bouw", company := "TG", project_location := "Utrecht"
    clock_in_time := 0, clock_in_location := { latitude := 52, longitude := 5 }
    clock_out_time := some 3600, total_hours := some 1
    status := "clocked_out", created_at := 0 }

/-- Database with one open session (of `sampleUser`, on `farProject`). -/
def openSessionDb : DB :=
  { clock_entries := [farOpenEntry], projects := [farProject], gps_logs := [] }

/-- Database with no sessions and the `(52°, 5°)` project. -/
def emptySessionDb : DB :=
  { clock_entries := [], projects := [sampleProject], gps_logs := [] }

/-- Database with no sessions and the zero-latitude project. -/
def zeroLatDb : DB :=
  { clock_entries := [], projects := [zeroLatProject], gps_logs := [] }

/-- Database with one closed session. -/
def closedSessionDb : DB :=
  { clock_entries := [closedEntry], projects := [sampleProject], gps_logs := [] }

/-- A clock-out request from `(0°, 180°)` — the far side of the planet
relative to `farProject`. -/
def farAwayClockOut : ClockOutRequest :=
  { location := { latitude := 0, longitude := 180 }, note := none }

/-- A clock-out request from the far side of the planet that also supplies a
new note. -/
def noteClockOut : ClockOutRequest :=
  { location := { latitude := 0, longitude := 180 }, note := some "klaar" }

/-- A clock-in request for `sampleProject` sent from its exact coordinate. -/
def onSiteClockIn : ClockInRequest :=
  { project_id := "p1", location := { latitude := 52, longitude := 5 }, note := none }

/-- A clock-in request for the zero-latitude project from its coordinate. -/
def zeroLatClockIn : ClockInRequest :=
  { project_id := "p0", location := { latitude := 0, longitude := 5 }, note := none }

/- ## Helper lemmas -/

lemma arctan_nonneg_of_nonneg {t : ℝ} (ht : 0 ≤ t) : 0 ≤ Real.arctan t := by
  have := Real.arctan_strictMono.monotone ht
  rwa [Real.arctan_zero] at this

lemma atan2_nonneg {y x : ℝ} (hy : 0 ≤ y) : 0 ≤ atan2 y x := by
  unfold atan2
  split_ifs with h1 h2 h3 h4
  · exact arctan_nonneg_of_nonneg (div_nonneg hy h1.le)
  · have ha := Real.neg_pi_div_two_lt_arctan (y / x)
    have hp := Real.pi_pos
    linarith
  · have hp := Real.pi_pos
    linarith
  · linarith
  · exact le_refl 0

lemma atan2_zero_of_pos {x : ℝ} (hx : 0 < x) : atan2 0 x = 0 := by
  unfold atan2
  rw [if_pos hx, zero_div, Real.arctan_zero]

lemma atan2_one_zero : atan2 1 0 = Real.pi / 2 := by
  unfold atan2
  norm_num

lemma radians_zero : radians 0 = 0 := by
  unfold radians; ring

lemma sin_sq_radians_sub_symm (u v : ℝ) :
    Real.sin (radians (u - v) / 2) ^ 2 = Real.sin (radians (v - u) / 2) ^ 2 := by
  have h : radians (u - v) / 2 = -(radians (v - u) / 2) := by
    unfold radians; ring
  rw [h, Real.sin_neg, neg_sq]

lemma calculate_distance_nonneg (lat1 lon1 lat2 lon2 : ℝ) :
    0 ≤ calculate_distance lat1 lon1 lat2 lon2 := by
  unfold calculate_distance
  have h := atan2_nonneg (x := Real.sqrt (1 - (Real.sin (radians (lat2 - lat1) / 2) ^ 2 +
    Real.cos (radians lat1) * Real.cos (radians lat2) * Real.sin (radians (lon2 - lon1) / 2) ^ 2)))
    (Real.sqrt_nonneg (Real.sin (radians (lat2 - lat1) / 2) ^ 2 +
      Real.cos (radians lat1) * Real.cos (radians lat2) * Real.sin (radians (lon2 - lon1) / 2) ^ 2))
  positivity

lemma calculate_distance_self (lat lon : ℝ) : calculate_distance lat lon lat lon = 0 := by
  unfold calculate_distance
  simp only [sub_self, radians_zero, zero_div, Real.sin_zero]
  rw [show (0:ℝ) ^ 2 + Real.cos (radians lat) * Real.cos (radians lat) * 0 ^ 2 = 0 by ring]
  rw [Real.sqrt_zero, sub_zero, Real.sqrt_one, atan2_zero_of_pos one_pos]
  ring

lemma calculate_distance_symm (lat1 lon1 lat2 lon2 : ℝ) :
    calculate_distance lat1 lon1 lat2 lon2 = calculate_distance lat2 lon2 lat1 lon1 := by
  unfold calculate_distance
  dsimp only
  rw [sin_sq_radians_sub_symm lat2 lat1, sin_sq_radians_sub_symm lon2 lon1,
    mul_comm (Real.cos (radians lat1)) (Real.cos (radians lat2))]

lemma calculate_distance_eq_haversine_spec (lat1 lon1 lat2 lon2 : ℝ) :
    calculate_distance lat1 lon1 lat2 lon2 = haversine_spec lat1 lon1 lat2 lon2 := by
  unfold calculate_distance haversine_spec
  have h1 : radians (lat2 - lat1) = radians lat2 - radians lat1 := by
    unfold radians; ring
  have h2 : radians (lon2 - lon1) = radians lon2 - radians lon1 := by
    unfold radians; ring
  rw [h1, h2]

/-- The concrete far pair used in counterexamples: the point `(0°, 180°)` is
`6 371 000 · π` meters from the site coordinate `(0°, 0°)`. -/
lemma calculate_distance_antipodal : calculate_distance 0 180 0 0 = 6371000 * Real.pi := by
  unfold calculate_distance
  dsimp only
  have h1 : radians (0 - 0) = 0 := by rw [sub_zero, radians_zero]
  have h2 : radians (0 - 180) / 2 = -(Real.pi / 2) := by unfold radians; ring
  rw [h1, h2, zero_div, Real.sin_zero, Real.sin_neg, Real.sin_pi_div_two]
  rw [show (0:ℝ) ^ 2 + Real.cos (radians 0) * Real.cos (radians 0) * (-1) ^ 2 =
      Real.cos (radians 0) ^ 2 by ring]
  rw [radians_zero, Real.cos_zero, one_pow, Real.sqrt_one, sub_self, Real.sqrt_zero,
    atan2_one_zero]
  ring

lemma roundHalfEven_intCast (k : ℤ) : roundHalfEven (k : ℝ) = k := by
  unfold roundHalfEven
  rw [Int.fract_intCast, Int.floor_intCast]
  norm_num

lemma pyRound2_div_100 (k : ℤ) : pyRound2 ((k : ℝ) / 100) = (k : ℝ) / 100 := by
  unfold pyRound2
  rw [div_mul_cancel₀ ((k : ℝ)) (by norm_num : (100 : ℝ) ≠ 0), roundHalfEven_intCast]

lemma pyRound2_four_half : pyRound2 (9 / 2) = 9 / 2 := by
  have h : (9 : ℝ) / 2 = ((450 : ℤ) : ℝ) / 100 := by norm_num
  rw [h, pyRound2_div_100]

/-- The clock-out geofence triple is `(None, None, None)` for every project
lookup result: project documents never carry `location_lat`/`location_lon`. -/
lemma clockOutGeofence_eq (p? : Option ProjectDoc) :
    clockOutGeofence p? = .ok (none, none, none) := by
  cases p? <;> rfl

/-- Same for the periodic-ping geofence pair. -/
lemma gpsGeofence_eq (p? : Option ProjectDoc) : gpsGeofence p? = .ok (none, none) := by
  cases p? <;> rfl

/-- Characterization of a successful `clock_out`: when the entry exists, is
owned by the caller and is not already closed, the handler closes it as
`closeEntry` describes and replaces it in the collection. -/
lemma clock_out_spec (db : DB) (user : User) (entry_id : String)
    (req : ClockOutRequest) (now : ℝ) (e : ClockEntry)
    (hfind : db.clock_entries.find? (fun x => x.id == entry_id) = some e)
    (hown : e.user_id = user.id)
    (hopen : e.status ≠ "clocked_out") :
    clock_out db user entry_id req now =
      ({ db with clock_entries := updateById db.clock_entries entry_id (closeEntry e req now) },
        .ok (closeEntry e req now)) := by
  have hu : (e.user_id == user.id) = true := beq_iff_eq.mpr hown
  have hs : (e.status == "clocked_out") = false := beq_eq_false_iff_ne.mpr hopen
  unfold clock_out
  rw [hfind]
  dsimp only
  rw [hu, if_pos rfl, hs, if_neg Bool.false_ne_true, clockOutGeofence_eq]
  rfl

/-- Characterization of a successful `log_gps_position`: the appended log
always carries `distance_to_project = None` and `within_radius = None`. -/
lemma log_gps_position_spec (db : DB) (user : User) (entry_id : String)
    (location : Location) (now : ℝ) (newId : String) (e : ClockEntry)
    (hfind : db.clock_entries.find? (fun x => x.id == entry_id) = some e)
    (hown : e.user_id = user.id)
    (hactive : e.status = "clocked_in") :
    log_gps_position db user entry_id location now newId =
      ({ db with gps_logs := db.gps_logs ++
          [⟨newId, entry_id, user.id, now, location, none, none⟩] },
        .ok ⟨newId, entry_id, user.id, now, location, none, none⟩) := by
  have hu : (e.user_id == user.id) = true := beq_iff_eq.mpr hown
  have hs : (e.status == "clocked_in") = true := beq_iff_eq.mpr hactive
  unfold log_gps_position
  rw [hfind]
  dsimp only
  rw [hu, if_pos rfl, hs, if_pos rfl, gpsGeofence_eq]

/-- `clock_in` with an existing open session: immediate 400, no state change
(src/server.py:653-659). -/
lemma clock_in_already (db : DB) (user : User) (req : ClockInRequest)
    (now : ℝ) (newId : String) (e : ClockEntry)
    (h : db.clock_entries.find? (isOpenEntryFor user.id) = some e) :
    clock_in db user req now newId = (db, .error .alreadyClockedIn) := by
  unfold clock_in
  rw [h]

/-- `clock_in` beyond the strict 50 m radius: 403 carrying the truncated
distance and the 50 m limit, no state change (src/server.py:681-686). -/
lemma clock_in_reject (db : DB) (user : User) (req : ClockInRequest)
    (now : ℝ) (newId : String) (p : ProjectDoc) (plat plon : ℝ)
    (hopen : db.clock_entries.find? (isOpenEntryFor user.id) = none)
    (hproj : db.projects.find? (isActiveProjectWithId req.project_id) = some p)
    (hlat : p.latitude = some plat) (hlon : p.longitude = some plon)
    (hnz : ¬(plat = 0 ∨ plon = 0))
    (hfar : calculate_distance req.location.latitude req.location.longitude plat plon > 50) :
    clock_in db user req now newId =
      (db, .error (.outOfRange
        (pyInt (calculate_distance req.location.latitude req.location.longitude plat plon))
        50)) := by
  unfold clock_in
  rw [hopen]
  dsimp only
  rw [hproj]
  dsimp only
  rw [hlat, hlon]
  dsimp only
  rw [if_neg hnz]
  rw [if_pos hfar]

/-- `clock_in` within the strict radius: a new open entry is appended, with
the admission verdict fields of `openedEntry` (src/server.py:688-717). -/
lemma clock_in_success (db : DB) (user : User) (req : ClockInRequest)
    (now : ℝ) (newId : String) (p : ProjectDoc) (plat plon radius : ℝ)
    (hopen : db.clock_entries.find? (isOpenEntryFor user.id) = none)
    (hproj : db.projects.find? (isActiveProjectWithId req.project_id) = some p)
    (hlat : p.latitude = some plat) (hlon : p.longitude = some plon)
    (hnz : ¬(plat = 0 ∨ plon = 0))
    (hnear : ¬ calculate_distance req.location.latitude req.location.longitude plat plon > 50)
    (hrad : p.location_radius = some radius) :
    clock_in db user req now newId =
      ({ db with clock_entries :=
          db.clock_entries ++ [openedEntry user req p plat plon radius now newId] },
        .ok (openedEntry user req p plat plon radius now newId)) := by
  unfold clock_in
  rw [hopen]
  dsimp only
  rw [hproj]
  dsimp only
  rw [hlat, hlon]
  dsimp only
  rw [if_neg hnz]
  rw [if_neg hnear]
  rw [hrad]
  rfl

/-- `clock_in` when the stored latitude or longitude is `None` or `0.0`:
the truthiness guard fires (src/server.py:671-672). -/
lemma clock_in_missing_location (db : DB) (user : User) (req : ClockInRequest)
    (now : ℝ) (newId : String) (p : ProjectDoc)
    (hopen : db.clock_entries.find? (isOpenEntryFor user.id) = none)
    (hproj : db.projects.find? (isActiveProjectWithId req.project_id) = some p)
    (h : p.latitude = none ∨ p.latitude = some 0 ∨
         p.longitude = none ∨ p.longitude = some 0) :
    clock_in db user req now newId = (db, .error .siteMissingLocation) := by
  unfold clock_in
  rw [hopen]
  dsimp only
  rw [hproj]
  dsimp only
  rcases h with h | h | h | h
  · rw [h]
  · rw [h]
    cases hlon : p.longitude with
    | none => rfl
    | some plon =>
      dsimp only
      rw [if_pos (Or.inl rfl)]
  · rw [h]
    cases p.latitude <;> rfl
  · rw [h]
    cases hlat : p.latitude with
    | none => rfl
    | some plat =>
      dsimp only
      rw [if_pos (Or.inr rfl)]

/-- `clock_in` with a genuinely nonzero stored coordinate never reports the
missing-site-location error: the handler proceeds to the distance check. -/
lemma clock_in_not_missing_location (db : DB) (user : User) (req : ClockInRequest)
    (now : ℝ) (newId : String) (p : ProjectDoc) (plat plon : ℝ)
    (hopen : db.clock_entries.find? (isOpenEntryFor user.id) = none)
    (hproj : db.projects.find? (isActiveProjectWithId req.project_id) = some p)
    (hlat : p.latitude = some plat) (hlon : p.longitude = some plon)
    (hnz : ¬(plat = 0 ∨ plon = 0)) :
    (clock_in db user req now newId).2 ≠ .error .siteMissingLocation := by
  by_cases hfar : calculate_distance req.location.latitude req.location.longitude plat plon > 50
  · rw [clock_in_reject db user req now newId p plat plon hopen hproj hlat hlon hnz hfar]
    intro hcontra
    exact ClockInError.noConfusion (Except.error.inj hcontra)
  · cases hrad : p.location_radius with
    | none =>
      unfold clock_in
      rw [hopen]
      dsimp only
      rw [hproj]
      dsimp only
      rw [hlat, hlon]
      dsimp only
      rw [if_neg hnz]
      rw [if_neg hfar]
      rw [hrad]
      intro hcontra
      exact ClockInError.noConfusion (Except.error.inj hcontra)
    | some radius =>
      rw [clock_in_success db user req now newId p plat plon radius hopen hproj hlat hlon
        hnz hfar hrad]
      intro hcontra
      exact Except.noConfusion hcontra

lemma filter_nil_of_find?_none {α : Type} (l : List α) (p : α → Bool)
    (h : l.find? p = none) : l.filter p = [] := by
  rw [List.filter_eq_nil_iff]
  intro a ha
  exact List.find?_eq_none.mp h a ha

lemma length_filter_append_singleton {α : Type} (l : List α) (x : α) (p : α → Bool) :
    ((l ++ [x]).filter p).length =
      (l.filter p).length + (if p x then 1 else 0) := by
  rw [List.filter_append]
  cases h : p x <;> simp [h]

/-- Replacing a list element by one the filter rejects cannot increase the
number of filtered elements. -/
lemma updateById_filter_length_le (l : List ClockEntry) (eid : String)
    (v : ClockEntry) (p : ClockEntry → Bool) (hv : p v = false) :
    ((updateById l eid v).filter p).length ≤ (l.filter p).length := by
  induction l with
  | nil => simp [updateById]
  | cons e rest ih =>
    unfold updateById
    by_cases h : (e.id == eid) = true
    · rw [if_pos h]
      rw [List.filter_cons, List.filter_cons, hv]
      cases hpe : p e <;> simp
    · rw [if_neg h]
      rw [List.filter_cons, List.filter_cons]
      cases hpe : p e <;> simp [ih]

/-- An element of the original list survives `updateById` unless it is the
value found (first) by the id predicate. -/
lemma mem_updateById_or_found (l : List ClockEntry) (eid : String)
    (v : ClockEntry) (x : ClockEntry) (hx : x ∈ l) :
    x ∈ updateById l eid v ∨ l.find? (fun e => e.id == eid) = some x := by
  induction l with
  | nil => cases hx
  | cons e rest ih =>
    unfold updateById
    by_cases h : (e.id == eid) = true
    · rw [if_pos h]
      rcases List.mem_cons.mp hx with hxe | hxr
      · right
        subst hxe
        exact List.find?_cons_of_pos rest h
      · left
        exact List.mem_cons_of_mem _ hxr
    · rw [if_neg h]
      rcases List.mem_cons.mp hx with hxe | hxr
      · left
        rw [hxe]
        exact List.mem_cons_self _ _
      · rcases ih hxr with hmem | hfound
        · left
          exact List.mem_cons_of_mem _ hmem
        · right
          exact (List.find?_cons_of_neg rest h).trans hfound

/-- Every run of `clock_in` either leaves the database unchanged (an error
was raised before the insert) or appends one open entry for the caller,
having first checked that the caller had no open entry. -/
lemma clock_in_result_cases (db : DB) (user : User) (req : ClockInRequest)
    (now : ℝ) (newId : String) :
    (∃ err, clock_in db user req now newId = (db, .error err)) ∨
    (db.clock_entries.find? (isOpenEntryFor user.id) = none ∧
      ∃ entry, entry.user_id = user.id ∧ entry.status = "clocked_in" ∧
        clock_in db user req now newId =
          ({ db with clock_entries := db.clock_entries ++ [entry] }, .ok entry)) := by
  cases hopen : db.clock_entries.find? (isOpenEntryFor user.id) with
  | some e =>
    left
    rw [clock_in_already db user req now newId e hopen]
    exact ⟨_, rfl⟩
  | none =>
    cases hproj : db.projects.find? (isActiveProjectWithId req.project_id) with
    | none =>
      left
      unfold clock_in
      rw [hopen]
      dsimp only
      rw [hproj]
      exact ⟨_, rfl⟩
    | some p =>
      cases hlat : p.latitude with
      | none =>
        left
        rw [clock_in_missing_location db user req now newId p hopen hproj (Or.inl hlat)]
        exact ⟨_, rfl⟩
      | some plat =>
        cases hlon : p.longitude with
        | none =>
          left
          rw [clock_in_missing_location db user req now newId p hopen hproj
            (Or.inr (Or.inr (Or.inl hlon)))]
          exact ⟨_, rfl⟩
        | some plon =>
          by_cases hz : plat = 0 ∨ plon = 0
          · left
            rcases hz with hz | hz
            · rw [clock_in_missing_location db user req now newId p hopen hproj
                (Or.inr (Or.inl (hz ▸ hlat)))]
              exact ⟨_, rfl⟩
            · rw [clock_in_missing_location db user req now newId p hopen hproj
                (Or.inr (Or.inr (Or.inr (hz ▸ hlon))))]
              exact ⟨_, rfl⟩
          · by_cases hfar :
              calculate_distance req.location.latitude req.location.longitude plat plon > 50
            · left
              rw [clock_in_reject db user req now newId p plat plon hopen hproj hlat hlon
                hz hfar]
              exact ⟨_, rfl⟩
            · cases hrad : p.location_radius with
              | none =>
                left
                unfold clock_in
                rw [hopen]
                dsimp only
                rw [hproj]
                dsimp only
                rw [hlat, hlon]
                dsimp only
                rw [if_neg hz]
                rw [if_neg hfar]
                rw [hrad]
                exact ⟨_, rfl⟩
              | some radius =>
                right
                refine ⟨rfl, openedEntry user req p plat plon radius now newId, rfl, rfl, ?_⟩
                rw [clock_in_success db user req now newId p plat plon radius hopen hproj
                  hlat hlon hz hfar hrad]

/-- Every run of `clock_out` either leaves the database unchanged or replaces
the first entry matching the id — an entry that was checked to be open and
owned — by its closed form. -/
lemma clock_out_result_cases (db : DB) (user : User) (entry_id : String)
    (req : ClockOutRequest) (now : ℝ) :
    (clock_out db user entry_id req now).1 = db ∨
    ∃ e, db.clock_entries.find? (fun x => x.id == entry_id) = some e ∧
      e.status ≠ "clocked_out" ∧
      (clock_out db user entry_id req now).1 =
        { db with clock_entries := updateById db.clock_entries entry_id (closeEntry e req now) } := by
  cases hfind : db.clock_entries.find? (fun x => x.id == entry_id) with
  | none =>
    left
    unfold clock_out
    rw [hfind]
  | some e =>
    by_cases hu : (e.user_id == user.id) = true
    · by_cases hs : (e.status == "clocked_out") = true
      · left
        unfold clock_out
        rw [hfind]
        dsimp only
        rw [hu, if_pos rfl, hs, if_pos rfl]
      · right
        refine ⟨e, rfl, fun hc => hs (beq_iff_eq.mpr hc), ?_⟩
        rw [clock_out_spec db user entry_id req now e hfind (beq_iff_eq.mp hu)
          (fun hc => hs (beq_iff_eq.mpr hc))]
    · left
      unfold clock_out
      rw [hfind]
      dsimp only
      rw [Bool.eq_false_iff.mpr hu, if_neg Bool.false_ne_true]

lemma totalRaw_nil : totalRaw [] = 0 := by
  simp [totalRaw]

lemma totalRaw_cons (e : ClockEntry) (l : List ClockEntry) :
    totalRaw (e :: l) = e.total_hours.getD 0 + totalRaw l := by
  simp [totalRaw]

lemma sumClosedHours_eq_totalRaw_filter (l : List ClockEntry) :
    sumClosedHours l =
      totalRaw (l.filter (fun e => e.status == "clocked_out" && e.total_hours.isSome)) := rfl

lemma foldl_overviewStep_total (l : List ClockEntry) (acc : OverviewAcc) :
    (l.foldl overviewStep acc).total = acc.total + totalRaw l := by
  induction l generalizing acc with
  | nil => rw [List.foldl_nil, totalRaw_nil, add_zero]
  | cons e rest ih =>
    rw [List.foldl_cons, ih, totalRaw_cons]
    unfold overviewStep
    dsimp only
    ring

lemma foldl_overviewStep_perProject (l : List ClockEntry) (acc : OverviewAcc) (n : String) :
    (l.foldl overviewStep acc).perProject n =
      acc.perProject n + totalRaw (l.filter (fun e => e.project_name == n)) := by
  induction l generalizing acc with
  | nil => rw [List.foldl_nil, List.filter_nil, totalRaw_nil, add_zero]
  | cons e rest ih =>
    rw [List.foldl_cons, ih, List.filter_cons]
    by_cases hn : n = e.project_name
    · rw [if_pos (beq_iff_eq.mpr hn.symm), totalRaw_cons]
      unfold overviewStep
      dsimp only
      rw [if_pos hn]
      ring
    · rw [if_neg (fun hb => hn (beq_iff_eq.mp hb).symm)]
      unfold overviewStep
      dsimp only
      rw [if_neg hn]

lemma foldl_overviewStep_perUser (l : List ClockEntry) (acc : OverviewAcc) (n : String) :
    (l.foldl overviewStep acc).perUser n =
      acc.perUser n + totalRaw (l.filter (fun e => e.user_name == n)) := by
  induction l generalizing acc with
  | nil => rw [List.foldl_nil, List.filter_nil, totalRaw_nil, add_zero]
  | cons e rest ih =>
    rw [List.foldl_cons, ih, List.filter_cons]
    by_cases hn : n = e.user_name
    · rw [if_pos (beq_iff_eq.mpr hn.symm), totalRaw_cons]
      unfold overviewStep
      dsimp only
      rw [if_pos hn]
      ring
    · rw [if_neg (fun hb => hn (beq_iff_eq.mp hb).symm)]
      unfold overviewStep
      dsimp only
      rw [if_neg hn]

/-- Under the handler invariants (statuses are the two legal strings and open
entries have no `total_hours`), the raw loop total equals the sum over the
closed entries with non-null hours. -/
lemma totalRaw_eq_sumClosedHours (l : List ClockEntry)
    (h0 : ∀ e ∈ l, e.status = "clocked_in" ∨ e.status = "clocked_out")
    (h1 : ∀ e ∈ l, e.status = "clocked_in" → e.total_hours = none) :
    totalRaw l = sumClosedHours l := by
  induction l with
  | nil => rw [totalRaw_nil, sumClosedHours_eq_totalRaw_filter, List.filter_nil, totalRaw_nil]
  | cons e rest ih =>
    have ih' : totalRaw rest = sumClosedHours rest :=
      ih (fun x hx => h0 x (List.mem_cons_of_mem _ hx))
        (fun x hx => h1 x (List.mem_cons_of_mem _ hx))
    rw [totalRaw_cons, sumClosedHours_eq_totalRaw_filter, List.filter_cons]
    by_cases hc : (e.status == "clocked_out" && e.total_hours.isSome) = true
    · rw [if_pos hc, totalRaw_cons, ← sumClosedHours_eq_totalRaw_filter, ih']
    · rw [if_neg hc, ← sumClosedHours_eq_totalRaw_filter, ih']
      have hz : e.total_hours.getD 0 = 0 := by
        rcases h0 e (List.mem_cons_self _ _) with hin | hout
        · rw [h1 e (List.mem_cons_self _ _) hin]
          rfl
        · cases hth : e.total_hours with
          | none => rfl
          | some x =>
            exact absurd (by rw [beq_iff_eq.mpr hout, hth]; rfl) hc
      rw [hz, zero_add]

/-- Every stored `total_hours` that is a multiple of 1/100 makes the raw
total a multiple of 1/100. -/
lemma totalRaw_hundredth (l : List ClockEntry)
    (h2 : ∀ e ∈ l, ∀ x, e.total_hours = some x → ∃ k : ℤ, x = (k : ℝ) / 100) :
    ∃ K : ℤ, totalRaw l = (K : ℝ) / 100 := by
  induction l with
  | nil => exact ⟨0, by rw [totalRaw_nil]; norm_num⟩
  | cons e rest ih =>
    obtain ⟨K, hK⟩ := ih (fun x hx => h2 x (List.mem_cons_of_mem _ hx))
    cases hth : e.total_hours with
    | none =>
      refine ⟨K, ?_⟩
      rw [totalRaw_cons, hth, hK]
      norm_num
    | some x =>
      obtain ⟨k, hk⟩ := h2 e (List.mem_cons_self _ _) x hth
      refine ⟨k + K, ?_⟩
      rw [totalRaw_cons, hth, Option.getD_some, hK, hk]
      push_cast
      ring

/- ## Claim theorems -/

/-- **C7**: for every pair of coordinates, `calculate_distance` returns the
Haversine great-circle distance with Earth radius 6 371 000 m computed
exactly as the spec's formula prescribes (it coincides with
`haversine_spec`), the result is non-negative, the distance from a point to
itself is 0, and the function is symmetric in its two coordinates. -/
theorem C7_haversine_distance (lat1 lon1 lat2 lon2 : ℝ) :
    calculate_distance lat1 lon1 lat2 lon2 = haversine_spec lat1 lon1 lat2 lon2 ∧
    0 ≤ calculate_distance lat1 lon1 lat2 lon2 ∧
    calculate_distance lat1 lon1 lat1 lon1 = 0 ∧
    calculate_distance lat1 lon1 lat2 lon2 = calculate_distance lat2 lon2 lat1 lon1 :=
  ⟨calculate_distance_eq_haversine_spec lat1 lon1 lat2 lon2,
    calculate_distance_nonneg lat1 lon1 lat2 lon2,
    calculate_distance_self lat1 lon1,
    calculate_distance_symm lat1 lon1 lat2 lon2⟩

/-- **C1**: against a site with a truthy coordinate, the admission check of
`clock_in` fails with the out-of-range error exactly when the computed
distance exceeds 50 m (a distance of exactly 50.0 m falls into the success
branch), the rejection carries the truncated measured distance together with
the 50 m limit and leaves the database unchanged (no session created), and
on success the stored entry has `project_match = (distance ≤ 250)` and a
location warning attached iff the distance exceeds the site's advisory
radius `location_radius`. -/
theorem C1_admission_policy (db : DB) (user : User) (req : ClockInRequest)
    (now : ℝ) (newId : String) (p : ProjectDoc) (plat plon radius : ℝ)
    (hopen : db.clock_entries.find? (isOpenEntryFor user.id) = none)
    (hproj : db.projects.find? (isActiveProjectWithId req.project_id) = some p)
    (hlat : p.latitude = some plat) (hlon : p.longitude = some plon)
    (hnz : ¬(plat = 0 ∨ plon = 0)) (hrad : p.location_radius = some radius) :
    (calculate_distance req.location.latitude req.location.longitude plat plon > 50 →
      clock_in db user req now newId =
        (db, .error (.outOfRange
          (pyInt (calculate_distance req.location.latitude req.location.longitude plat plon))
          50))) ∧
    (calculate_distance req.location.latitude req.location.longitude plat plon ≤ 50 →
      clock_in db user req now newId =
        ({ db with clock_entries :=
            db.clock_entries ++ [openedEntry user req p plat plon radius now newId] },
          .ok (openedEntry user req p plat plon radius now newId)) ∧
      (openedEntry user req p plat plon radius now newId).status = "clocked_in" ∧
      (openedEntry user req p plat plon radius now newId).distance_to_project_m =
        some (calculate_distance req.location.latitude req.location.longitude plat plon) ∧
      ((openedEntry user req p plat plon radius now newId).project_match = some true ↔
        calculate_distance req.location.latitude req.location.longitude plat plon ≤
          DEFAULT_PROJECT_MATCH_RADIUS) ∧
      ((openedEntry user req p plat plon radius now newId).location_warning ≠ none ↔
        calculate_distance req.location.latitude req.location.longitude plat plon > radius)) ∧
    (∀ err, (clock_in db user req now newId).2 = .error err →
      (clock_in db user req now newId).1 = db) := by
  refine ⟨?_, ?_, ?_⟩
  · intro hfar
    exact clock_in_reject db user req now newId p plat plon hopen hproj hlat hlon hnz hfar
  · intro hle
    have hnear : ¬ calculate_distance req.location.latitude req.location.longitude plat plon > 50 :=
      not_lt.mpr hle
    refine ⟨clock_in_success db user req now newId p plat plon radius hopen hproj hlat hlon
      hnz hnear hrad, rfl, rfl, ?_, ?_⟩
    · show some (decide _) = some true ↔ _
      rw [Option.some_inj]
      exact decide_eq_true_iff
    · show (if _ > radius then some _ else none) ≠ none ↔ _
      by_cases hw : calculate_distance req.location.latitude req.location.longitude plat plon > radius
      · rw [if_pos hw]
        simp [hw]
      · rw [if_neg hw]
        simp [hw]
  · intro err herr
    rcases clock_in_result_cases db user req now newId with ⟨err2, heq⟩ | ⟨_, entry, _, _, heq⟩
    · rw [heq]
    · rw [heq] at herr
      exact absurd herr (by simp)

open Classical in
/-- Witness for C1: clocking in from the exact site coordinate (distance 0)
satisfies all hypotheses and lands in the admitted branch. -/
theorem C1_admission_policy_witness :
    emptySessionDb.clock_entries.find? (isOpenEntryFor sampleUser.id) = none ∧
    emptySessionDb.projects.find? (isActiveProjectWithId onSiteClockIn.project_id) =
      some sampleProject ∧
    sampleProject.latitude = some 52 ∧
    sampleProject.longitude = some 5 ∧
    ¬((52 : ℝ) = 0 ∨ (5 : ℝ) = 0) ∧
    sampleProject.location_radius = some 100 ∧
    calculate_distance onSiteClockIn.location.latitude onSiteClockIn.location.longitude 52 5
      ≤ 50 ∧
    clock_in emptySessionDb sampleUser onSiteClockIn 7 "n1" =
      ({ emptySessionDb with clock_entries :=
          emptySessionDb.clock_entries ++
            [openedEntry sampleUser onSiteClockIn sampleProject 52 5 100 7 "n1"] },
        .ok (openedEntry sampleUser onSiteClockIn sampleProject 52 5 100 7 "n1")) ∧
    ((openedEntry sampleUser onSiteClockIn sampleProject 52 5 100 7 "n1").project_match =
        some true ↔
      calculate_distance onSiteClockIn.location.latitude onSiteClockIn.location.longitude 52 5
        ≤ DEFAULT_PROJECT_MATCH_RADIUS) := by
  have hnz : ¬((52 : ℝ) = 0 ∨ (5 : ℝ) = 0) := by norm_num
  have hd : calculate_distance onSiteClockIn.location.latitude
      onSiteClockIn.location.longitude 52 5 = 0 := calculate_distance_self 52 5
  have hle : calculate_distance onSiteClockIn.location.latitude
      onSiteClockIn.location.longitude 52 5 ≤ 50 := by
    rw [hd]
    norm_num
  obtain ⟨h1, h2, h3⟩ :=
    C1_admission_policy emptySessionDb sampleUser onSiteClockIn 7 "n1" sampleProject
      52 5 100 rfl rfl rfl rfl hnz rfl
  obtain ⟨hsucc, _, _, hpm, _⟩ := h2 hle
  exact ⟨rfl, rfl, rfl, rfl, hnz, rfl, hle, hsucc, hpm⟩

/-- **C10**: because the site-coordinate presence check uses Python
truthiness, the missing-site-location rejection of `clock_in` fires exactly
when the stored latitude or longitude is `None` (key absent or null) or
equal to `0.0` — so a project genuinely located on the equator or the prime
meridian cannot admit clock-ins. -/
theorem C10_truthiness_rejects_zero (db : DB) (user : User) (req : ClockInRequest)
    (now : ℝ) (newId : String) (p : ProjectDoc)
    (hopen : db.clock_entries.find? (isOpenEntryFor user.id) = none)
    (hproj : db.projects.find? (isActiveProjectWithId req.project_id) = some p) :
    clock_in db user req now newId = (db, .error .siteMissingLocation) ↔
      (p.latitude = none ∨ p.latitude = some 0 ∨
        p.longitude = none ∨ p.longitude = some 0) := by
  constructor
  · intro heq
    by_contra hnot
    push_neg at hnot
    obtain ⟨hn1, hn2, hn3, hn4⟩ := hnot
    cases hlat : p.latitude with
    | none => exact hn1 hlat
    | some plat =>
      cases hlon : p.longitude with
      | none => exact hn3 hlon
      | some plon =>
        have hnz : ¬(plat = 0 ∨ plon = 0) := by
          rintro (rfl | rfl)
          · exact hn2 hlat
          · exact hn4 hlon
        have := clock_in_not_missing_location db user req now newId p plat plon
          hopen hproj hlat hlon hnz
        rw [heq] at this
        exact this rfl
  · exact clock_in_missing_location db user req now newId p hopen hproj

/-- Witness for C10: a project stored at latitude exactly `0.0` is rejected
as having no GPS location. -/
theorem C10_truthiness_rejects_zero_witness :
    zeroLatDb.clock_entries.find? (isOpenEntryFor sampleUser.id) = none ∧
    zeroLatDb.projects.find? (isActiveProjectWithId zeroLatClockIn.project_id) =
      some zeroLatProject ∧
    clock_in zeroLatDb sampleUser zeroLatClockIn 7 "n1" =
      (zeroLatDb, .error .siteMissingLocation) :=
  ⟨rfl, rfl,
    (C10_truthiness_rejects_zero zeroLatDb sampleUser zeroLatClockIn 7 "n1"
      zeroLatProject rfl rfl).mpr (Or.inr (Or.inl rfl))⟩

/-- **C2**: at most one open session per worker under sequential operations:
a second `clock_in` by a worker with an existing open entry fails with the
already-clocked-in error regardless of the site or location supplied and
leaves the database unchanged (no new session), and both `clock_in` and
`clock_out` preserve the at-most-one-open invariant. -/
theorem C2_single_open_session (db : DB) (user : User) (req : ClockInRequest)
    (now : ℝ) (newId : String) (entry_id : String) (req2 : ClockOutRequest)
    (now2 : ℝ) (e : ClockEntry) :
    (db.clock_entries.find? (isOpenEntryFor user.id) = some e →
      clock_in db user req now newId = (db, .error .alreadyClockedIn)) ∧
    (atMostOneOpen db → atMostOneOpen (clock_in db user req now newId).1) ∧
    (atMostOneOpen db → atMostOneOpen (clock_out db user entry_id req2 now2).1) := by
  refine ⟨fun h => clock_in_already db user req now newId e h, ?_, ?_⟩
  · intro hinv uid
    rcases clock_in_result_cases db user req now newId with ⟨err, heq⟩ |
      ⟨hopen, entry, huid, hstatus, heq⟩
    · rw [heq]
      exact hinv uid
    · unfold openCount
      rw [heq]
      dsimp only
      rw [length_filter_append_singleton]
      by_cases huid2 : uid = user.id
      · subst huid2
        rw [filter_nil_of_find?_none _ _ hopen]
        split <;> norm_num
      · have hfalse : isOpenEntryFor uid entry = false := by
          unfold isOpenEntryFor
          rw [huid, beq_eq_false_iff_ne.mpr (Ne.symm huid2), Bool.false_and]
        rw [hfalse, if_neg Bool.false_ne_true, add_zero]
        exact hinv uid
  · intro hinv uid
    rcases clock_out_result_cases db user entry_id req2 now2 with heq |
      ⟨e0, hfind0, hopen0, heq⟩
    · rw [heq]
      exact hinv uid
    · unfold openCount
      rw [heq]
      dsimp only
      have hclosed : isOpenEntryFor uid (closeEntry e0 req2 now2) = false := by
        unfold isOpenEntryFor closeEntry
        dsimp only
        rw [Bool.and_eq_false_iff]
        right
        rfl
      exact le_trans
        (updateById_filter_length_le db.clock_entries entry_id
          (closeEntry e0 req2 now2) (isOpenEntryFor uid) hclosed)
        (hinv uid)

/-- Witness for C2: with one open session in the ledger, a second clock-in by
the same worker fails, and both handlers preserve the invariant. -/
theorem C2_single_open_session_witness :
    openSessionDb.clock_entries.find? (isOpenEntryFor sampleUser.id) = some farOpenEntry ∧
    atMostOneOpen openSessionDb ∧
    clock_in openSessionDb sampleUser onSiteClockIn 5 "n2" =
      (openSessionDb, .error .alreadyClockedIn) ∧
    atMostOneOpen (clock_in openSessionDb sampleUser onSiteClockIn 5 "n2").1 ∧
    atMostOneOpen (clock_out openSessionDb sampleUser "e1" farAwayClockOut 5).1 := by
  have amo : atMostOneOpen openSessionDb := by
    intro uid
    unfold openCount
    exact le_trans (List.length_filter_le (isOpenEntryFor uid) openSessionDb.clock_entries)
      (by norm_num [openSessionDb])
  have h := C2_single_open_session openSessionDb sampleUser onSiteClockIn 5 "n2" "e1"
    farAwayClockOut 5 farOpenEntry
  exact ⟨rfl, amo, h.1 rfl, h.2.1 amo, h.2.2 amo⟩

/-- Counterexample for C3 as stated: closing the session of `farOpenEntry`
from `(0°, 180°)` — more than 20 000 km, hence far beyond the 100 m advisory
radius of `farProject` — succeeds and transitions the session to
`clocked_out`, but `clock_out_warning` is NOT set: it remains `none`,
because the clock-out geofence branch reads the nonexistent
`location_lat`/`location_lon` project keys and never activates. -/
theorem C3_closing_warning_counterexample :
    calculate_distance farAwayClockOut.location.latitude farAwayClockOut.location.longitude
      0 0 > 100 ∧
    farProject.location_radius = some 100 ∧
    clock_out openSessionDb sampleUser "e1" farAwayClockOut 16200 =
      ({ openSessionDb with clock_entries := updateById openSessionDb.clock_entries "e1" (closeEntry farOpenEntry farAwayClockOut 16200) },
        .ok (closeEntry farOpenEntry farAwayClockOut 16200)) ∧
    (closeEntry farOpenEntry farAwayClockOut 16200).status = "clocked_out" ∧
    (closeEntry farOpenEntry farAwayClockOut 16200).clock_out_warning = none := by
  refine ⟨?_, rfl, ?_, rfl, rfl⟩
  · show calculate_distance 0 180 0 0 > 100
    rw [calculate_distance_antipodal]
    nlinarith [Real.pi_gt_three]
  · exact clock_out_spec openSessionDb sampleUser "e1" farAwayClockOut 16200 farOpenEntry
      rfl rfl (by decide)

/-- **C3 (amended)**: `clock_out` on an open, owned session never fails
because of distance — for every clock-out location the close succeeds and
transitions the session to `clocked_out` — but, contrary to the claim's last
part, `closing_warning` is never set: it is left `none` regardless of the
distance to the site, because the geofence branch is dead (see C4). -/
theorem C3_advisory_non_blocking (db : DB) (user : User) (entry_id : String)
    (req : ClockOutRequest) (now : ℝ) (e : ClockEntry)
    (hfind : db.clock_entries.find? (fun x => x.id == entry_id) = some e)
    (hown : e.user_id = user.id)
    (hopen : e.status ≠ "clocked_out") :
    clock_out db user entry_id req now =
      ({ db with clock_entries := updateById db.clock_entries entry_id (closeEntry e req now) },
        .ok (closeEntry e req now)) ∧
    (closeEntry e req now).status = "clocked_out" ∧
    (closeEntry e req now).clock_out_warning = none :=
  ⟨clock_out_spec db user entry_id req now e hfind hown hopen, rfl, rfl⟩

/-- Witness for the amended C3: the concrete far-away close of
`C3_closing_warning_counterexample`, at a distance of 6 371 000 · π m. -/
theorem C3_advisory_non_blocking_witness :
    openSessionDb.clock_entries.find? (fun x => x.id == "e1") = some farOpenEntry ∧
    farOpenEntry.user_id = sampleUser.id ∧
    farOpenEntry.status ≠ "clocked_out" ∧
    (clock_out openSessionDb sampleUser "e1" farAwayClockOut 7200 =
      ({ openSessionDb with clock_entries := updateById openSessionDb.clock_entries "e1" (closeEntry farOpenEntry farAwayClockOut 7200) },
        .ok (closeEntry farOpenEntry farAwayClockOut 7200)) ∧
    (closeEntry farOpenEntry farAwayClockOut 7200).status = "clocked_out" ∧
    (closeEntry farOpenEntry farAwayClockOut 7200).clock_out_warning = none) :=
  ⟨rfl, rfl, by decide,
    C3_advisory_non_blocking openSessionDb sampleUser "e1" farAwayClockOut 7200
      farOpenEntry rfl rfl (by decide)⟩

/-- Any successful `clock_out` result is the `closeEntry` of some found
entry. -/
lemma clock_out_ok_shape (db : DB) (user : User) (entry_id : String)
    (req : ClockOutRequest) (now : ℝ) (db1 : DB) (e1 : ClockEntry)
    (h : clock_out db user entry_id req now = (db1, .ok e1)) :
    ∃ e, e1 = closeEntry e req now := by
  cases hfind : db.clock_entries.find? (fun x => x.id == entry_id) with
  | none =>
    unfold clock_out at h
    rw [hfind] at h
    simp at h
  | some e =>
    by_cases hu : (e.user_id == user.id) = true
    · by_cases hs : (e.status == "clocked_out") = true
      · unfold clock_out at h
        rw [hfind] at h
        dsimp only at h
        rw [hu, if_pos rfl, hs, if_pos rfl] at h
        simp at h
      · rw [clock_out_spec db user entry_id req now e hfind (beq_iff_eq.mp hu)
          (fun hc => hs (beq_iff_eq.mpr hc))] at h
        have h2 := congrArg Prod.snd h
        dsimp only at h2
        exact ⟨e, (Except.ok.inj h2).symm⟩
    · unfold clock_out at h
      rw [hfind] at h
      dsimp only at h
      rw [Bool.eq_false_iff.mpr hu, if_neg Bool.false_ne_true] at h
      simp at h

/-- Any successfully stored GPS log carries `none` for both geofence
fields. -/
lemma log_gps_ok_shape (db : DB) (user : User) (entry_id : String)
    (loc : Location) (now : ℝ) (nid : String) (db2 : DB) (g : GpsLog)
    (h : log_gps_position db user entry_id loc now nid = (db2, .ok g)) :
    g.distance_to_project = none ∧ g.within_radius = none := by
  cases hfind : db.clock_entries.find? (fun x => x.id == entry_id) with
  | none =>
    unfold log_gps_position at h
    rw [hfind] at h
    simp at h
  | some e =>
    by_cases hu : (e.user_id == user.id) = true
    · by_cases hs : (e.status == "clocked_in") = true
      · rw [log_gps_position_spec db user entry_id loc now nid e hfind
          (beq_iff_eq.mp hu) (beq_iff_eq.mp hs)] at h
        have h2 := congrArg Prod.snd h
        dsimp only at h2
        rw [← Except.ok.inj h2]
        exact ⟨rfl, rfl⟩
      · unfold log_gps_position at h
        rw [hfind] at h
        dsimp only at h
        rw [hu, if_pos rfl, Bool.eq_false_iff.mpr hs, if_neg Bool.false_ne_true] at h
        simp at h
    · unfold log_gps_position at h
      rw [hfind] at h
      dsimp only at h
      rw [Bool.eq_false_iff.mpr hu, if_neg Bool.false_ne_true] at h
      simp at h

/-- **C4**: because the clock-out path reads the project coordinate from the
keys `location_lat`/`location_lon` while project documents only ever store
`latitude`/`longitude`, the clock-out geofence computation never activates:
every successful `clock_out` leaves `clock_out_distance_m`,
`clock_out_match` and `clock_out_warning` all `none` regardless of the
clock-out location, and every stored periodic GPS log likewise has
`distance_to_project = none` and `within_radius = none`. -/
theorem C4_clock_out_geofence_never_activates (db : DB) (user : User)
    (entry_id : String) (req : ClockOutRequest) (now now2 : ℝ) (loc : Location)
    (nid : String) (db1 db2 : DB) (e1 : ClockEntry) (g : GpsLog) :
    (clock_out db user entry_id req now = (db1, .ok e1) →
      e1.clock_out_distance_m = none ∧ e1.clock_out_match = none ∧
        e1.clock_out_warning = none) ∧
    (log_gps_position db user entry_id loc now2 nid = (db2, .ok g) →
      g.distance_to_project = none ∧ g.within_radius = none) := by
  constructor
  · intro h
    obtain ⟨e, he⟩ := clock_out_ok_shape db user entry_id req now db1 e1 h
    rw [he]
    exact ⟨rfl, rfl, rfl⟩
  · exact log_gps_ok_shape db user entry_id loc now2 nid db2 g

/-- Witness for C4: a concrete clock-out from 20 000 km away and a concrete
periodic ping both succeed with all geofence fields `none`. -/
theorem C4_clock_out_geofence_never_activates_witness :
    clock_out openSessionDb sampleUser "e1" farAwayClockOut 3600 =
      ({ openSessionDb with clock_entries := updateById openSessionDb.clock_entries "e1" (closeEntry farOpenEntry farAwayClockOut 3600) },
        .ok (closeEntry farOpenEntry farAwayClockOut 3600)) ∧
    log_gps_position openSessionDb sampleUser "e1"
        { latitude := 52, longitude := 5 } 100 "g1" =
      ({ openSessionDb with gps_logs := openSessionDb.gps_logs ++ [⟨"g1", "e1", sampleUser.id, 100, { latitude := 52, longitude := 5 }, none, none⟩] },
        .ok ⟨"g1", "e1", sampleUser.id, 100, { latitude := 52, longitude := 5 }, none, none⟩) ∧
    (closeEntry farOpenEntry farAwayClockOut 3600).clock_out_distance_m = none ∧
    (closeEntry farOpenEntry farAwayClockOut 3600).clock_out_match = none ∧
    (closeEntry farOpenEntry farAwayClockOut 3600).clock_out_warning = none ∧
    (⟨"g1", "e1", sampleUser.id, 100, { latitude := 52, longitude := 5 }, none, none⟩ :
      GpsLog).distance_to_project = none ∧
    (⟨"g1", "e1", sampleUser.id, 100, { latitude := 52, longitude := 5 }, none, none⟩ :
      GpsLog).within_radius = none := by
  have hco := clock_out_spec openSessionDb sampleUser "e1" farAwayClockOut 3600
    farOpenEntry rfl rfl (by decide)
  have hg := log_gps_position_spec openSessionDb sampleUser "e1"
    { latitude := 52, longitude := 5 } 100 "g1" farOpenEntry rfl rfl rfl
  have h := C4_clock_out_geofence_never_activates openSessionDb sampleUser "e1"
    farAwayClockOut 3600 100 { latitude := 52, longitude := 5 } "g1"
    ({ openSessionDb with clock_entries := updateById openSessionDb.clock_entries "e1" (closeEntry farOpenEntry farAwayClockOut 3600) })
    ({ openSessionDb with gps_logs := openSessionDb.gps_logs ++ [⟨"g1", "e1", sampleUser.id, 100, { latitude := 52, longitude := 5 }, none, none⟩] })
    (closeEntry farOpenEntry farAwayClockOut 3600)
    ⟨"g1", "e1", sampleUser.id, 100, { latitude := 52, longitude := 5 }, none, none⟩
  obtain ⟨hc1, hc2, hc3⟩ := h.1 hco
  obtain ⟨hg1, hg2⟩ := h.2 hg
  exact ⟨hco, hg, hc1, hc2, hc3, hg1, hg2⟩

/-- **C5**: every successful `clock_out` at time `now` of a session opened at
`clock_in_time` stores
`total_hours = round((now - clock_in_time).total_seconds() / 3600, 2)`. -/
theorem C5_duration_computation (db : DB) (user : User) (entry_id : String)
    (req : ClockOutRequest) (now : ℝ) (e : ClockEntry)
    (hfind : db.clock_entries.find? (fun x => x.id == entry_id) = some e)
    (hown : e.user_id = user.id)
    (hopen : e.status ≠ "clocked_out") :
    (clock_out db user entry_id req now).2 = .ok (closeEntry e req now) ∧
    (closeEntry e req now).total_hours =
      some (pyRound2 ((now - e.clock_in_time) / 3600)) := by
  rw [clock_out_spec db user entry_id req now e hfind hown hopen]
  exact ⟨rfl, rfl⟩

/-- Witness for C5: a session open for exactly 4 h 30 min (16 200 s) closes
with `total_hours = 4.5`. -/
theorem C5_duration_computation_witness :
    openSessionDb.clock_entries.find? (fun x => x.id == "e1") = some farOpenEntry ∧
    farOpenEntry.user_id = sampleUser.id ∧
    farOpenEntry.status ≠ "clocked_out" ∧
    (clock_out openSessionDb sampleUser "e1" farAwayClockOut 16200).2 =
      .ok (closeEntry farOpenEntry farAwayClockOut 16200) ∧
    (closeEntry farOpenEntry farAwayClockOut 16200).total_hours = some (9 / 2) := by
  obtain ⟨h1, h2⟩ := C5_duration_computation openSessionDb sampleUser "e1"
    farAwayClockOut 16200 farOpenEntry rfl rfl (by decide)
  refine ⟨rfl, rfl, by decide, h1, ?_⟩
  rw [h2]
  have harg : ((16200 : ℝ) - farOpenEntry.clock_in_time) / 3600 = 9 / 2 := by
    show ((16200 : ℝ) - 0) / 3600 = 9 / 2
    norm_num
  rw [harg, pyRound2_four_half]

/-- **C6**: `clock_out` on an already-closed session owned by the caller
always fails with the already-closed error and performs no state change;
moreover no run of `clock_out` or `clock_in` ever removes or reopens a
closed entry: every entry with status `clocked_out` is still present,
unchanged, afterwards. -/
theorem C6_no_reopen (db : DB) (user : User) (entry_id : String)
    (req : ClockOutRequest) (now : ℝ) (e : ClockEntry) (req2 : ClockInRequest)
    (now2 : ℝ) (newId : String) :
    (db.clock_entries.find? (fun x => x.id == entry_id) = some e →
      e.user_id = user.id → e.status = "clocked_out" →
      clock_out db user entry_id req now = (db, .error .alreadyClosed)) ∧
    (∀ x ∈ db.clock_entries, x.status = "clocked_out" →
      x ∈ (clock_out db user entry_id req now).1.clock_entries) ∧
    (∀ x ∈ db.clock_entries, x ∈ (clock_in db user req2 now2 newId).1.clock_entries) := by
  refine ⟨?_, ?_, ?_⟩
  · intro hfind hown hclosed
    unfold clock_out
    rw [hfind]
    dsimp only
    rw [beq_iff_eq.mpr hown, if_pos rfl, beq_iff_eq.mpr hclosed, if_pos rfl]
  · intro x hx hxclosed
    rcases clock_out_result_cases db user entry_id req now with heq |
      ⟨e0, hfind0, hopen0, heq⟩
    · rw [heq]
      exact hx
    · rw [heq]
      dsimp only
      rcases mem_updateById_or_found db.clock_entries entry_id
        (closeEntry e0 req now) x hx with hmem | hfound
      · exact hmem
      · exfalso
        have : e0 = x := Option.some.inj (hfind0.symm.trans hfound)
        rw [this] at hopen0
        exact hopen0 hxclosed
  · intro x hx
    rcases clock_in_result_cases db user req2 now2 newId with ⟨err, heq⟩ |
      ⟨_, entry, _, _, heq⟩
    · rw [heq]
      exact hx
    · rw [heq]
      dsimp only
      exact List.mem_append.mpr (Or.inl hx)

/-- Witness for C6: double-closing the already-closed `closedEntry` fails
with the already-closed error and leaves the database untouched. -/
theorem C6_no_reopen_witness :
    closedSessionDb.clock_entries.find? (fun x => x.id == "e2") = some closedEntry ∧
    closedEntry.user_id = sampleUser.id ∧
    closedEntry.status = "clocked_out" ∧
    clock_out closedSessionDb sampleUser "e2" farAwayClockOut 99999 =
      (closedSessionDb, .error .alreadyClosed) :=
  ⟨rfl, rfl, rfl,
    (C6_no_reopen closedSessionDb sampleUser "e2" farAwayClockOut 99999 closedEntry
      onSiteClockIn 0 "n9").1 rfl rfl rfl⟩

/-- `update_project` touches only the `projects` collection. -/
lemma update_project_clock_entries (db : DB) (pid : String) (data : ProjectCreate) :
    (update_project db pid data).1.clock_entries = db.clock_entries := by
  unfold update_project
  cases db.projects.find? (fun p => p.id == pid) <;> rfl

/-- **C9**: a successful `clock_out` changes only the closing fields
(`clock_out_time`, `clock_out_location`, the closing distance/match/warning
triple), `total_hours`, `status`, and — only when a new note is supplied —
`note`; the denormalized site fields, worker identity, opening data and the
admission verdict fields are all unchanged, and a later `update_project` on
any project leaves the stored clock entries untouched. -/
theorem C9_close_frame (db : DB) (user : User) (entry_id : String)
    (req : ClockOutRequest) (now : ℝ) (e : ClockEntry) (pid : String)
    (data : ProjectCreate)
    (hfind : db.clock_entries.find? (fun x => x.id == entry_id) = some e)
    (hown : e.user_id = user.id)
    (hopen : e.status ≠ "clocked_out") :
    clock_out db user entry_id req now =
      ({ db with clock_entries := updateById db.clock_entries entry_id (closeEntry e req now) },
        .ok (closeEntry e req now)) ∧
    (closeEntry e req now).id = e.id ∧
    (closeEntry e req now).user_id = e.user_id ∧
    (closeEntry e req now).user_name = e.user_name ∧
    (closeEntry e req now).project_id = e.project_id ∧
    (closeEntry e req now).project_name = e.project_name ∧
    (closeEntry e req now).company = e.company ∧
    (closeEntry e req now).project_location = e.project_location ∧
    (closeEntry e req now).clock_in_time = e.clock_in_time ∧
    (closeEntry e req now).clock_in_location = e.clock_in_location ∧
    (closeEntry e req now).location_warning = e.location_warning ∧
    (closeEntry e req now).distance_to_project_m = e.distance_to_project_m ∧
    (closeEntry e req now).project_match = e.project_match ∧
    (closeEntry e req now).created_at = e.created_at ∧
    (closeEntry e req now).status = "clocked_out" ∧
    (closeEntry e req now).clock_out_time = some now ∧
    (closeEntry e req now).clock_out_location = some req.location ∧
    ((closeEntry e req now).note = match req.note with
      | some n => if n = "" then e.note else some n
      | none => e.note) ∧
    (update_project (clock_out db user entry_id req now).1 pid data).1.clock_entries =
      (clock_out db user entry_id req now).1.clock_entries :=
  ⟨clock_out_spec db user entry_id req now e hfind hown hopen,
    rfl, rfl, rfl, rfl, rfl, rfl, rfl, rfl, rfl, rfl, rfl, rfl, rfl, rfl, rfl, rfl, rfl,
    update_project_clock_entries (clock_out db user entry_id req now).1 pid data⟩

/-- Witness for C9: closing `farOpenEntry` with a new note `"klaar"` keeps
every identity/site/opening field, sets the closing fields, overwrites the
note, and a subsequent project edit does not touch the entries. -/
theorem C9_close_frame_witness :
    openSessionDb.clock_entries.find? (fun x => x.id == "e1") = some farOpenEntry ∧
    farOpenEntry.user_id = sampleUser.id ∧
    farOpenEntry.status ≠ "clocked_out" ∧
    clock_out openSessionDb sampleUser "e1" noteClockOut 3600 =
      ({ openSessionDb with clock_entries := updateById openSessionDb.clock_entries "e1" (closeEntry farOpenEntry noteClockOut 3600) },
        .ok (closeEntry farOpenEntry noteClockOut 3600)) ∧
    (closeEntry farOpenEntry noteClockOut 3600).user_name = farOpenEntry.user_name ∧
    (closeEntry farOpenEntry noteClockOut 3600).project_name = farOpenEntry.project_name ∧
    (closeEntry farOpenEntry noteClockOut 3600).clock_in_time = farOpenEntry.clock_in_time ∧
    (closeEntry farOpenEntry noteClockOut 3600).note = some "klaar" ∧
    (update_project (clock_out openSessionDb sampleUser "e1" noteClockOut 3600).1 "p2"
      { name := "Renamed", company := "TG2", location := "Elsewhere" }).1.clock_entries =
      (clock_out openSessionDb sampleUser "e1" noteClockOut 3600).1.clock_entries := by
  obtain ⟨hmain, hrest⟩ := C9_close_frame openSessionDb sampleUser "e1" noteClockOut 3600
    farOpenEntry "p2" { name := "Renamed", company := "TG2", location := "Elsewhere" }
    rfl rfl (by decide)
  exact ⟨rfl, rfl, by decide, hmain, rfl, rfl, rfl, rfl,
    update_project_clock_entries (clock_out openSessionDb sampleUser "e1" noteClockOut 3600).1
      "p2" { name := "Renamed", company := "TG2", location := "Elsewhere" }⟩

/-- **C8**: for every list of entries matching an aggregation filter, under
the handler invariants (each status is one of the two legal strings, open
entries store no `total_hours`, and every stored `total_hours` is a whole
number of hundredths, as `round(x, 2)` produces), the admin-overview totals
— overall, per project and per worker — equal the sum of `total_hours` over
only the clocked-out entries with a non-null `total_hours`; open sessions
contribute nothing. -/
theorem C8_hours_aggregation (entries : List ClockEntry)
    (h0 : ∀ e ∈ entries, e.status = "clocked_in" ∨ e.status = "clocked_out")
    (h1 : ∀ e ∈ entries, e.status = "clocked_in" → e.total_hours = none)
    (h2 : ∀ e ∈ entries, ∀ x, e.total_hours = some x → ∃ k : ℤ, x = (k : ℝ) / 100) :
    get_admin_overview entries =
      (sumClosedHours entries,
        fun n => sumClosedHours (entries.filter (fun e => e.project_name == n)),
        fun n => sumClosedHours (entries.filter (fun e => e.user_name == n))) := by
  unfold get_admin_overview
  dsimp only
  have ht : pyRound2 (List.foldl overviewStep ⟨0, fun _ => 0, fun _ => 0⟩ entries).total =
      sumClosedHours entries := by
    rw [foldl_overviewStep_total]
    dsimp only
    rw [zero_add]
    obtain ⟨K, hK⟩ := totalRaw_hundredth entries h2
    rw [hK, pyRound2_div_100, ← hK]
    exact totalRaw_eq_sumClosedHours entries h0 h1
  have hp : (List.foldl overviewStep ⟨0, fun _ => 0, fun _ => 0⟩ entries).perProject =
      fun n => sumClosedHours (entries.filter (fun e => e.project_name == n)) := by
    funext n
    rw [foldl_overviewStep_perProject]
    dsimp only
    rw [zero_add]
    exact totalRaw_eq_sumClosedHours _
      (fun x hx => h0 x (List.mem_filter.mp hx).1)
      (fun x hx => h1 x (List.mem_filter.mp hx).1)
  have hu : (List.foldl overviewStep ⟨0, fun _ => 0, fun _ => 0⟩ entries).perUser =
      fun n => sumClosedHours (entries.filter (fun e => e.user_name == n)) := by
    funext n
    rw [foldl_overviewStep_perUser]
    dsimp only
    rw [zero_add]
    exact totalRaw_eq_sumClosedHours _
      (fun x hx => h0 x (List.mem_filter.mp hx).1)
      (fun x hx => h1 x (List.mem_filter.mp hx).1)
  rw [ht, hp, hu]

/-- Witness for C8: one closed entry with 1.0 stored hours and one open entry
with no hours; the overview totals equal the closed-only sum. -/
theorem C8_hours_aggregation_witness :
    (∀ e ∈ [closedEntry, farOpenEntry],
      e.status = "clocked_in" ∨ e.status = "clocked_out") ∧
    (∀ e ∈ [closedEntry, farOpenEntry],
      e.status = "clocked_in" → e.total_hours = none) ∧
    (∀ e ∈ [closedEntry, farOpenEntry],
      ∀ x, e.total_hours = some x → ∃ k : ℤ, x = (k : ℝ) / 100) ∧
    get_admin_overview [closedEntry, farOpenEntry] =
      (sumClosedHours [closedEntry, farOpenEntry],
        fun n => sumClosedHours
          ([closedEntry, farOpenEntry].filter (fun e => e.project_name == n)),
        fun n => sumClosedHours
          ([closedEntry, farOpenEntry].filter (fun e => e.user_name == n))) ∧
    sumClosedHours [closedEntry, farOpenEntry] = 1 := by
  have hmem : ∀ e ∈ [closedEntry, farOpenEntry], e = closedEntry ∨ e = farOpenEntry := by
    intro e he
    simp only [List.mem_cons, List.not_mem_nil, or_false] at he
    exact he
  have h0 : ∀ e ∈ [closedEntry, farOpenEntry],
      e.status = "clocked_in" ∨ e.status = "clocked_out" := by
    intro e he
    rcases hmem e he with rfl | rfl
    · right
      rfl
    · left
      rfl
  have h1 : ∀ e ∈ [closedEntry, farOpenEntry],
      e.status = "clocked_in" → e.total_hours = none := by
    intro e he
    rcases hmem e he with rfl | rfl
    · intro hcontra
      exact absurd hcontra (by decide)
    · intro _
      rfl
  have h2 : ∀ e ∈ [closedEntry, farOpenEntry],
      ∀ x, e.total_hours = some x → ∃ k : ℤ, x = (k : ℝ) / 100 := by
    intro e he x hx
    rcases hmem e he with rfl | rfl
    · have hx1 : (1 : ℝ) = x :=
        Option.some.inj (hx : (some (1 : ℝ) : Option ℝ) = some x)
      exact ⟨100, by rw [← hx1]; norm_num⟩
    · exact Option.noConfusion (hx : (none : Option ℝ) = some x)
  have hsum : sumClosedHours [closedEntry, farOpenEntry] = 1 := by
    show totalRaw [closedEntry] = 1
    rw [totalRaw_cons, totalRaw_nil]
    show (1 : ℝ) + 0 = 1
    norm_num
  exact ⟨h0, h1, h2, C8_hours_aggregation [closedEntry, farOpenEntry] h0 h1 h2, hsum⟩
